import Mathlib

/-!
Verification of the `aiAssistantApi` facade
(`src/client/src/services/aiAssistant.js`) against its specification.

The module is a thin wrapper over a shared axios-like HTTP client `api`
exposing `get(path, config)`, `post(path, body, config)`, and
`delete(path, config)`.  We embed the client as a record of three
functions, each facade operation as a function that applies exactly the
client call written in the source, and instrument the client with a
recorder (returning the call made) and a tracer (returning the list of
calls made) to state properties about the outbound traffic.
-/

namespace AiAssistant

/-- Request bodies that the module constructs.  The only body built in the
source is a `FormData` with appended fields; the field value is the file
object, kept abstract as a type parameter `F`. -/
inductive ReqBody (F : Type) where
  | formData (fields : List (String × F))
deriving DecidableEq

/-- An axios-style request config object.  A JS config literal may or may
not carry a `params` key and a `headers` key; absence is `none`.  Parameter
and header maps are ordered association lists mirroring the object
literals in the source. -/
structure Config where
  params : Option (List (String × String))
  headers : Option (List (String × String))
deriving DecidableEq

/-- One call on the HTTP client collaborator, with everything the facade
passes to it.  A JS call that omits the config argument has config
`none`; `api.post(path, null, cfg)` has body `none`. -/
inductive ApiCall (F : Type) where
  | get (path : String) (config : Option Config)
  | post (path : String) (body : Option (ReqBody F)) (config : Option Config)
  | delete (path : String) (config : Option Config)
deriving DecidableEq

/-- The HTTP client collaborator (the imported `api` object): three
methods, each returning the transport's result of type `R`. -/
structure HttpClient (F : Type) (R : Type) where
  get : String → Option Config → R
  post : String → Option (ReqBody F) → Option Config → R
  delete : String → Option Config → R

namespace aiAssistantApi

variable {F R : Type}

/-- `sendMessage(sessionId, userQuery, subject, learnerType = "medium")`,
lines 6-14 of the source. -/
def sendMessage (api : HttpClient F R) (sessionId userQuery subject : String)
    (learnerType : optParam String "medium") : R :=
  api.post "/services/chat" none (some
    { params := some [("session_id", sessionId), ("user_query", userQuery),
        ("subject", subject), ("learner_type", learnerType)],
      headers := none })

/-- `getSessions()`, line 17 of the source: `api.get` with the config
argument omitted. -/
def getSessions (api : HttpClient F R) : R :=
  api.get "/services/sessions" none

/-- `createSession(userId)`, lines 19-24 of the source. -/
def createSession (api : HttpClient F R) (userId : String) : R :=
  api.post "/services/session/create" none (some
    { params := some [("user_id", userId)], headers := none })

/-- `deleteSession(userId, sessionId)`, lines 27-33 of the source. -/
def deleteSession (api : HttpClient F R) (userId sessionId : String) : R :=
  api.delete "/services/session/delete" (some
    { params := some [("user_id", userId), ("session_id", sessionId)],
      headers := none })

/-- `getRecommendations(subject, learnerType = "medium")`, lines 36-42 of
the source. -/
def getRecommendations (api : HttpClient F R) (subject : String)
    (learnerType : optParam String "medium") : R :=
  api.post "/services/recommendations" none (some
    { params := some [("subject", subject), ("learner_type", learnerType)],
      headers := none })

/-- `getAutocompleteSuggestions(userQueryPartial, subject)`, lines 45-51
of the source. -/
def getAutocompleteSuggestions (api : HttpClient F R)
    (userQueryPartial subject : String) : R :=
  api.post "/services/autocomplete" none (some
    { params := some [("user_query_partial", userQueryPartial),
        ("subject", subject)],
      headers := none })

/-- `uploadTextbook(file)`, lines 54-62 of the source: build a `FormData`
with the single appended field `"file"` and post it with a multipart
content-type header; the config literal has no `params` key. -/
def uploadTextbook (api : HttpClient F R) (file : F) : R :=
  let formData : ReqBody F := ReqBody.formData [("file", file)]
  api.post "/services/upload" (some formData) (some
    { params := none, headers := some [("Content-Type", "multipart/form-data")] })

end aiAssistantApi

/-- The arguments of one facade invocation: one constructor per exported
operation, carrying exactly its JS arguments (with any default already
resolved, as JS does at the call boundary). -/
inductive OpArgs (F : Type) where
  | sendMessage (sessionId userQuery subject learnerType : String)
  | getSessions
  | createSession (userId : String)
  | deleteSession (userId sessionId : String)
  | getRecommendations (subject learnerType : String)
  | getAutocompleteSuggestions (userQueryPartial subject : String)
  | uploadTextbook (file : F)
deriving DecidableEq

variable {F R : Type}

/-- Invoke the facade operation selected by `o` on the client `api`. -/
def dispatch (api : HttpClient F R) : OpArgs F → R
  | .sendMessage s q subj lt => aiAssistantApi.sendMessage api s q subj lt
  | .getSessions => aiAssistantApi.getSessions api
  | .createSession uid => aiAssistantApi.createSession api uid
  | .deleteSession uid sid => aiAssistantApi.deleteSession api uid sid
  | .getRecommendations subj lt => aiAssistantApi.getRecommendations api subj lt
  | .getAutocompleteSuggestions part subj =>
      aiAssistantApi.getAutocompleteSuggestions api part subj
  | .uploadTextbook f => aiAssistantApi.uploadTextbook api f

/-- Instrumented client that returns the call made to it. -/
def recorder (F : Type) : HttpClient F (ApiCall F) :=
  { get := ApiCall.get, post := ApiCall.post, delete := ApiCall.delete }

/-- Instrumented client that returns the list of calls made to it (each
method reports its own call; the facade returns the client's result, so
the facade's result under this client is its outbound call trace). -/
def tracer (F : Type) : HttpClient F (List (ApiCall F)) :=
  { get := fun p c => [ApiCall.get p c],
    post := fun p b c => [ApiCall.post p b c],
    delete := fun p c => [ApiCall.delete p c] }

/-- The single client call a facade invocation performs. -/
def theCall (o : OpArgs F) : ApiCall F :=
  dispatch (recorder F) o

/-- The trace of client calls a facade invocation performs. -/
def callsOf (o : OpArgs F) : List (ApiCall F) :=
  dispatch (tracer F) o

/-- Replay an already-described call on a client. -/
def runCall (api : HttpClient F R) : ApiCall F → R
  | .get p c => api.get p c
  | .post p b c => api.post p b c
  | .delete p c => api.delete p c

/-- HTTP methods of the spec's `RequestDescriptor` (spec section 3). -/
inductive HttpMethod where
  | GET
  | POST
  | DELETE
deriving DecidableEq

/-- The spec's transient `RequestDescriptor` (section 3): method, path,
parameter mapping, optional body, optional headers. -/
structure RequestDescriptor (F : Type) where
  method : HttpMethod
  path : String
  parameters : List (String × String)
  body : Option (ReqBody F)
  headers : Option (List (String × String))
deriving DecidableEq

/-- View a client call as the spec's `RequestDescriptor`. -/
def descriptorOf : ApiCall F → RequestDescriptor F
  | .get p c => ⟨.GET, p, ((c.bind Config.params).getD []), none, c.bind Config.headers⟩
  | .post p b c => ⟨.POST, p, ((c.bind Config.params).getD []), b, c.bind Config.headers⟩
  | .delete p c => ⟨.DELETE, p, ((c.bind Config.params).getD []), none, c.bind Config.headers⟩

/-- Modelled from the spec: the required query-parameter names of each
operation, read off the table in spec section 6 (the upload row lists a
multipart body and header, not query parameters). -/
def requiredParamsSpec : OpArgs F → List String
  | .sendMessage _ _ _ _ => ["session_id", "user_query", "subject", "learner_type"]
  | .getSessions => []
  | .createSession _ => ["user_id"]
  | .deleteSession _ _ => ["user_id", "session_id"]
  | .getRecommendations _ _ => ["subject", "learner_type"]
  | .getAutocompleteSuggestions _ _ => ["user_query_partial", "subject"]
  | .uploadTextbook _ => []

/-- The body argument of a `post` call (`some b` where `b` is the possibly
null body), or `none` for methods without a body slot. -/
def postBody : ApiCall F → Option (Option (ReqBody F))
  | .post _ b _ => some b
  | _ => none

/-- The config argument of a call. -/
def configOf : ApiCall F → Option Config
  | .get _ c => c
  | .post _ _ c => c
  | .delete _ c => c

/-- The headers mapping a call sets, if any. -/
def headersOf (c : ApiCall F) : Option (List (String × String)) :=
  (configOf c).bind Config.headers

/-- The query parameters a call sets, if any. -/
def paramsOf (c : ApiCall F) : Option (List (String × String)) :=
  (configOf c).bind Config.params

/-- Run a list of facade invocations in order against one client, also
threading an explicit log of the outbound calls made so far. -/
def runSeqLog (api : HttpClient F R) :
    List (OpArgs F) → List (ApiCall F) → List R × List (ApiCall F)
  | [], log => ([], log)
  | o :: os, log =>
      let r := dispatch api o
      let rest := runSeqLog api os (log ++ callsOf o)
      (r :: rest.1, rest.2)

/-- A client whose every method fails with transport error `0`. -/
def errClient : HttpClient Nat (Except Nat Nat) :=
  { get := fun _ _ => Except.error 0,
    post := fun _ _ _ => Except.error 0,
    delete := fun _ _ => Except.error 0 }

/-- Each facade operation returns exactly the result of replaying its one
recorded call on the client. -/
theorem dispatch_eq_runCall (api : HttpClient F R) (o : OpArgs F) :
    dispatch api o = runCall api (theCall o) := by
  cases o <;> rfl

/-- Each facade operation's trace is the single recorded call. -/
theorem callsOf_eq (o : OpArgs F) : callsOf o = [theCall o] := by
  cases o <;> rfl

/-- Claim C1: for every sessionId, userQuery, subject, and learnerType,
`sendMessage` issues exactly one POST to `/services/chat` whose query
parameters are exactly session_id, user_query, subject, learner_type
bound to the given arguments, and the request carries no body. -/
theorem C1_sendMessage_request (F : Type) (sid uq subj lt : String) :
    callsOf (OpArgs.sendMessage sid uq subj lt : OpArgs F) =
      [ApiCall.post "/services/chat" none (some
        { params := some [("session_id", sid), ("user_query", uq),
            ("subject", subj), ("learner_type", lt)],
          headers := none })] := rfl

/-- Claim C2: calling `sendMessage` with the fourth argument omitted
yields a request descriptor whose learner_type parameter is "medium",
and likewise `getRecommendations` with the second argument omitted. -/
theorem C2_default_learner_type (F : Type) (s q subj : String) :
    (descriptorOf (aiAssistantApi.sendMessage (recorder F) s q subj)).parameters.lookup
        "learner_type" = some "medium" ∧
    (descriptorOf (aiAssistantApi.getRecommendations (recorder F) subj)).parameters.lookup
        "learner_type" = some "medium" :=
  ⟨rfl, rfl⟩

/-- Claim C3: `getSessions()` issues a GET to `/services/sessions` with no
parameters, `createSession(userId)` issues a POST to
`/services/session/create` with exactly the parameter user_id, and
`getAutocompleteSuggestions(p, s)` issues a POST to
`/services/autocomplete` with exactly user_query_partial and subject, as
the section-6 table states. -/
theorem C3_table_match (F : Type) (uid p s : String) :
    callsOf (OpArgs.getSessions : OpArgs F) =
      [ApiCall.get "/services/sessions" none] ∧
    callsOf (OpArgs.createSession uid : OpArgs F) =
      [ApiCall.post "/services/session/create" none (some
        { params := some [("user_id", uid)], headers := none })] ∧
    callsOf (OpArgs.getAutocompleteSuggestions p s : OpArgs F) =
      [ApiCall.post "/services/autocomplete" none (some
        { params := some [("user_query_partial", p), ("subject", s)],
          headers := none })] :=
  ⟨rfl, rfl, rfl⟩

/-- Claim C4: for every userId and sessionId, `deleteSession` issues
exactly one DELETE to `/services/session/delete` whose query parameters
are exactly user_id and session_id bound to the given arguments. -/
theorem C4_deleteSession_request (F : Type) (uid sid : String) :
    callsOf (OpArgs.deleteSession uid sid : OpArgs F) =
      [ApiCall.delete "/services/session/delete" (some
        { params := some [("user_id", uid), ("session_id", sid)],
          headers := none })] := rfl

/-- Claim C5: for every file f, `uploadTextbook(f)` issues a POST to
`/services/upload` whose body is a multipart form with exactly one field
"file" equal to f, with the Content-Type header set to
multipart/form-data. -/
theorem C5_uploadTextbook_request (F : Type) (f : F) :
    callsOf (OpArgs.uploadTextbook f) =
      [ApiCall.post "/services/upload" (some (ReqBody.formData [("file", f)]))
        (some
          { params := none,
            headers := some [("Content-Type", "multipart/form-data")] })] := rfl

/-- Claim C6: for every facade operation, if the transport's result for
the one call the operation makes is a rejection with error e, the
operation's result is that very rejection, unmodified: the facade
returns the transport's pending result without catching or wrapping. -/
theorem C6_errors_propagate (F E A : Type) (api : HttpClient F (Except E A))
    (o : OpArgs F) (e : E)
    (h : runCall api (theCall o) = Except.error e) :
    dispatch api o = Except.error e := by
  rw [dispatch_eq_runCall]
  exact h

/-- Witness for claim C6 at the getSessions operation against a client
whose every method rejects with error 0. -/
theorem C6_errors_propagate_witness :
    runCall errClient (theCall (OpArgs.getSessions : OpArgs Nat)) =
        Except.error 0 ∧
    dispatch errClient (OpArgs.getSessions : OpArgs Nat) = Except.error 0 :=
  ⟨rfl, C6_errors_propagate Nat Nat Nat errClient OpArgs.getSessions 0 rfl⟩

/-- Claim C7: every facade operation performs exactly one call on the
transport collaborator (its trace is one call), and its result depends
on the collaborator only through the response to that single call: two
clients that answer that call alike yield the same result, so the
operation reads or writes nothing else of the collaborator, its
configuration included; in this pure embedding the arguments themselves
are immutable values carried unchanged into the descriptor. -/
theorem C7_single_call_frame (F R : Type) (c₁ c₂ : HttpClient F R)
    (o : OpArgs F) (h : runCall c₁ (theCall o) = runCall c₂ (theCall o)) :
    callsOf o = [theCall o] ∧ dispatch c₁ o = dispatch c₂ o := by
  refine ⟨callsOf_eq o, ?_⟩
  rw [dispatch_eq_runCall, dispatch_eq_runCall, h]

/-- Witness for claim C7 at createSession with two clients that agree on
the recorded call. -/
theorem C7_single_call_frame_witness :
    runCall (recorder Nat) (theCall (OpArgs.createSession "u1" : OpArgs Nat)) =
        runCall (recorder Nat) (theCall (OpArgs.createSession "u1" : OpArgs Nat)) ∧
    (callsOf (OpArgs.createSession "u1" : OpArgs Nat) =
        [theCall (OpArgs.createSession "u1" : OpArgs Nat)] ∧
      dispatch (recorder Nat) (OpArgs.createSession "u1" : OpArgs Nat) =
        dispatch (recorder Nat) (OpArgs.createSession "u1" : OpArgs Nat)) :=
  ⟨rfl, C7_single_call_frame Nat (ApiCall Nat) (recorder Nat) (recorder Nat)
    (OpArgs.createSession "u1") rfl⟩

/-- Claim C8: the facade is stateless and calls never interfere: running
any sequence of invocations yields, for each one, exactly the result of
invoking it alone (so equal arguments give equal descriptors and
results), and the call log grows by each invocation's own single call,
independent of its neighbours. -/
theorem C8_stateless_independent (F R : Type) (api : HttpClient F R)
    (os : List (OpArgs F)) (log : List (ApiCall F)) :
    (runSeqLog api os log).1 = os.map (dispatch api) ∧
    (runSeqLog api os log).2 = log ++ os.flatMap callsOf := by
  induction os generalizing log with
  | nil => simp [runSeqLog]
  | cons o os ih =>
      refine ⟨?_, ?_⟩
      · simp [runSeqLog, (ih (log ++ callsOf o)).1]
      · simp [runSeqLog, (ih (log ++ callsOf o)).2]

/-- Claim C9: for every operation and arguments, each query parameter
the section-6 table requires for that operation is present in the
constructed request descriptor before it is handed to the transport. -/
theorem C9_required_params_present (F : Type) (o : OpArgs F) (k : String)
    (hk : k ∈ requiredParamsSpec o) :
    ((descriptorOf (theCall o)).parameters.lookup k).isSome = true := by
  cases o <;>
    simp only [requiredParamsSpec, List.mem_cons, List.not_mem_nil,
      or_false] at hk
  case sendMessage s q subj lt =>
    rcases hk with rfl | rfl | rfl | rfl <;> rfl
  case createSession uid =>
    rcases hk with rfl
    rfl
  case deleteSession uid sid =>
    rcases hk with rfl | rfl <;> rfl
  case getRecommendations subj lt =>
    rcases hk with rfl | rfl <;> rfl
  case getAutocompleteSuggestions p s =>
    rcases hk with rfl | rfl <;> rfl

/-- Witness for claim C9 at createSession("u1") and the required
parameter user_id. -/
theorem C9_required_params_present_witness :
    "user_id" ∈ requiredParamsSpec (OpArgs.createSession "u1" : OpArgs Nat) ∧
    ((descriptorOf (theCall (OpArgs.createSession "u1" : OpArgs Nat))).parameters.lookup
        "user_id").isSome = true :=
  ⟨List.mem_singleton.mpr rfl,
    C9_required_params_present Nat (OpArgs.createSession "u1") "user_id"
      (List.mem_singleton.mpr rfl)⟩

/-- Claim C10: only uploadTextbook attaches a body or a headers mapping:
sendMessage, createSession, getRecommendations and
getAutocompleteSuggestions each pass an explicitly null body with query
parameters and no headers; getSessions passes no configuration at all;
deleteSession has no body slot and sets no headers; uploadTextbook
attaches the form-data body and the multipart header. -/
theorem C10_body_headers_shape (F : Type) (f : F)
    (s q subj lt uid sid part : String) :
    postBody (theCall (OpArgs.sendMessage s q subj lt : OpArgs F)) = some none ∧
    headersOf (theCall (OpArgs.sendMessage s q subj lt : OpArgs F)) = none ∧
    (paramsOf (theCall (OpArgs.sendMessage s q subj lt : OpArgs F))).isSome = true ∧
    postBody (theCall (OpArgs.createSession uid : OpArgs F)) = some none ∧
    headersOf (theCall (OpArgs.createSession uid : OpArgs F)) = none ∧
    (paramsOf (theCall (OpArgs.createSession uid : OpArgs F))).isSome = true ∧
    postBody (theCall (OpArgs.getRecommendations subj lt : OpArgs F)) = some none ∧
    headersOf (theCall (OpArgs.getRecommendations subj lt : OpArgs F)) = none ∧
    (paramsOf (theCall (OpArgs.getRecommendations subj lt : OpArgs F))).isSome = true ∧
    postBody (theCall (OpArgs.getAutocompleteSuggestions part subj : OpArgs F)) = some none ∧
    headersOf (theCall (OpArgs.getAutocompleteSuggestions part subj : OpArgs F)) = none ∧
    (paramsOf (theCall (OpArgs.getAutocompleteSuggestions part subj : OpArgs F))).isSome = true ∧
    configOf (theCall (OpArgs.getSessions : OpArgs F)) = none ∧
    postBody (theCall (OpArgs.deleteSession uid sid : OpArgs F)) = none ∧
    headersOf (theCall (OpArgs.deleteSession uid sid : OpArgs F)) = none ∧
    postBody (theCall (OpArgs.uploadTextbook f)) =
      some (some (ReqBody.formData [("file", f)])) ∧
    headersOf (theCall (OpArgs.uploadTextbook f)) =
      some [("Content-Type", "multipart/form-data")] :=
  ⟨rfl, rfl, rfl, rfl, rfl, rfl, rfl, rfl, rfl, rfl, rfl, rfl, rfl, rfl,
    rfl, rfl, rfl⟩

end AiAssistant
